import Mathlib

/-!
Shallow embedding of the Plan–Execute–Synthesize orchestrator of the
vibeplexity assistant (cli.ts `agenticWorkflow`) and its three tool
executors (src/tools/web-search.ts `webSearch`, src/tools/fetch-url.ts
`fetchUrl`, src/tools/generate-haiku.ts `generateHaiku`).

External collaborators (the Exa search provider, the HybridEngine fetch
client, and the language-model calls for haiku generation and synthesis)
are modelled as function-valued fields of an `Env` record: each is a
function from the data the source passes to the collaborator to
`Except String`-classified outcomes, standing for a resolved or rejected
promise.  JavaScript strings are modelled as Lean `String`; the JS
operations `trim`, `substring(0, n)` and `.length` are modelled over the
character list (`String.data`), which identifies UTF-16 code units with
characters — a standard shallow-embedding simplification that none of the
verified properties depend on.  JS `throw` of an `Error` with message `m`
is modelled as `Except.error m` (throwing non-`Error` values is not
modelled; no code path in the repository throws one).  Zod-generated
validation messages are modelled as the fixed strings zod produces for
the schemas in web-search.ts.
-/

deriving instance DecidableEq for Except

/-- Model of JavaScript `String.prototype.trim` on the character list:
drop leading and trailing whitespace. -/
def trimChars (cs : List Char) : List Char :=
  ((cs.dropWhile Char.isWhitespace).reverse.dropWhile Char.isWhitespace).reverse

/-- Model of JavaScript `s.substring(0, n)`: the first `n` characters. -/
def jsSubstringTo (s : String) (n : Nat) : String :=
  String.mk (s.data.take n)

/-- Model of JavaScript `s.length`. -/
def jsLength (s : String) : Nat :=
  s.data.length

/-- The closed set of tool identifiers of the planner schema
(src/prompts/planner.js: `z.enum(["webSearch", "fetchUrl", "generateHaiku"])`). -/
inductive ToolName where
  | webSearch
  | fetchUrl
  | generateHaiku
deriving DecidableEq, Repr

/-- The `parameters` object of the planner schema: one optional array of
argument strings per tool identifier. -/
structure PlannerParameters where
  webSearch : Option (List String)
  fetchUrl : Option (List String)
  generateHaiku : Option (List String)
deriving DecidableEq, Repr

/-- Model of the JS property access `plan.object.parameters[toolName]`. -/
def PlannerParameters.forTool (ps : PlannerParameters) : ToolName → Option (List String)
  | .webSearch => ps.webSearch
  | .fetchUrl => ps.fetchUrl
  | .generateHaiku => ps.generateHaiku

/-- A validated Plan, the output type of the planner schema
(src/prompts/planner.js `plannerSchema`). -/
structure Plan where
  reasoning : String
  tools : List ToolName
  parameters : PlannerParameters
  expectedWorkflow : String
deriving DecidableEq, Repr

/-- Shorthand for the per-tool parameter lookup on a Plan. -/
def Plan.params (p : Plan) (t : ToolName) : Option (List String) :=
  p.parameters.forTool t

/- ## web-search.ts -/

/-- The `searchType` enumeration of `SearchOptionsSchema`. -/
inductive SearchType where
  | neural
  | keyword
  | auto
deriving DecidableEq, Repr

/-- Caller-supplied search options, before zod parsing (each field of
`SearchOptionsSchema` that has a zod default or is `.optional()` is an
`Option` here; `none` is JS `undefined`). -/
structure SearchOptions where
  numResults : Option Nat
  searchType : Option SearchType
  text : Option Bool
  highlights : Option Bool
  summary : Option Bool
  startPublishedDate : Option String
  endPublishedDate : Option String
  includeDomains : Option (List String)
  excludeDomains : Option (List String)
deriving DecidableEq, Repr

/-- Search options after `SearchOptionsSchema.parse`: defaults applied
(`numResults` 5, `searchType` auto, the three booleans true). -/
structure ParsedSearchOptions where
  numResults : Nat
  searchType : SearchType
  text : Bool
  highlights : Bool
  summary : Bool
  startPublishedDate : Option String
  endPublishedDate : Option String
  includeDomains : Option (List String)
  excludeDomains : Option (List String)
deriving DecidableEq, Repr

/-- One search result as mapped by `webSearch` from the provider response
(the field set picked out of `response.results` in web-search.ts). -/
structure ExaSearchResult where
  title : String
  url : String
  id : String
  text : Option String
  highlights : Option (List String)
  summary : Option String
  publishedDate : Option String
  author : Option String
  image : Option String
  favicon : Option String
deriving DecidableEq, Repr

/-- The `costDollars` sub-object of the provider response. -/
structure CostDollars where
  total : Int
deriving DecidableEq, Repr

/-- Raw response of the external `exa.searchAndContents` call. -/
structure ExaResponse where
  results : List ExaSearchResult
  requestId : String
  costDollars : Option CostDollars
deriving DecidableEq, Repr

/-- Return type of `webSearch` (`WebSearchResponse` in web-search.ts);
`resolvedSearchType` is kept as the enumeration rather than its string. -/
structure WebSearchResponse where
  results : List ExaSearchResult
  requestId : String
  resolvedSearchType : SearchType
  costDollars : Option CostDollars
deriving DecidableEq, Repr

/-- The parameter object `webSearch` passes to `exa.searchAndContents`
(the `searchParams` record built in web-search.ts). -/
structure SearchParams where
  numResults : Nat
  type : SearchType
  text : Bool
  highlights : Bool
  summary : Bool
  startPublishedDate : Option String
  endPublishedDate : Option String
  includeDomains : Option (List String)
  excludeDomains : Option (List String)
deriving DecidableEq, Repr

/-- Result of the external `engine.fetchHTML` call in fetch-url.ts:
the Markdown `content` plus the optional non-critical `error`, whose
message is only logged. -/
structure FetchHTMLResult where
  content : String
  fetchWarning : Option String
deriving DecidableEq, Repr

/-- Success payload of one ToolResult, matching the `result` field pushed by
the dispatch loop for each tool. -/
inductive Payload where
  | searchResults (results : List ExaSearchResult)
  | fetchContent (content : String) (contentLength : Nat)
  | haikuText (haiku : String)
deriving DecidableEq, Repr

/-- One entry of the `toolResults` array of cli.ts: the tool identifier, the
argument (the `query` / `url` / `prompt` field), and either the success
payload or the error message. -/
structure ToolResult where
  tool : ToolName
  arg : String
  outcome : Except String Payload
deriving DecidableEq, Repr

/-- The external collaborators consumed by the orchestrator and the tool
executors, each modelled as a function to an `Except`-classified outcome.
`exaApiKey` is `process.env["EXA_API_KEY"]` (`none` = unset).
`synthesisModel` stands for the `generateText` synthesis call: the source
assembles its prompt from `plan.reasoning`, `plan.expectedWorkflow`, the
user query and the JSON-serialized full `toolResults` list, so the model
function receives exactly those four values. -/
structure Env where
  exaApiKey : Option String
  searchAndContents : String → SearchParams → Except String ExaResponse
  fetchHTML : String → Except String FetchHTMLResult
  haikuModel : String → Except String String
  synthesisModel : String → String → String → List ToolResult → Except String String

/-- Validation of `EXA_API_KEY` by `ExaApiKeySchema.parse`, including the
catch-block prefix for zod errors (`Validation error: ...`); "Required" is
the zod message for a missing value, and the `min(1, ...)` custom message
fires on an empty string. -/
def validateApiKey : Option String → Except String String
  | none => .error "Validation error: Required"
  | some k => if k.data.isEmpty then .error "Validation error: EXA_API_KEY is required" else .ok k

/-- Application of the zod defaults of `SearchOptionsSchema` to supplied
options, given the validated `numResults` value `n`. -/
def applyOptionDefaults (options : SearchOptions) (n : Nat) : ParsedSearchOptions :=
  ⟨n, options.searchType.getD .auto, options.text.getD true, options.highlights.getD true,
    options.summary.getD true, options.startPublishedDate, options.endPublishedDate,
    options.includeDomains, options.excludeDomains⟩

/-- Model of `SearchOptionsSchema.parse(options)`: `numResults` must lie in
`[1, 100]` (zod `min(1).max(100)`), with default `5`; every other field
either has a default or is optional, so only `numResults` can fail.
Error strings are the zod default messages behind the catch-block prefix. -/
def parseSearchOptions (options : SearchOptions) : Except String ParsedSearchOptions :=
  match options.numResults with
  | none => .ok (applyOptionDefaults options 5)
  | some n =>
    if n < 1 then .error "Validation error: Number must be greater than or equal to 1"
    else if 100 < n then .error "Validation error: Number must be less than or equal to 100"
    else .ok (applyOptionDefaults options n)

/-- Truthiness of an optional JS string: `undefined` and `""` are falsy.
Used because web-search.ts adds the published-date parameters only under
`if (parsedOptions?.startPublishedDate)`. -/
def presentString : Option String → Option String
  | none => none
  | some s => if s.data.isEmpty then none else some s

/-- The `searchParams` object built in web-search.ts: the base record plus
the optional fields added when present (dates are added only when truthy,
i.e. non-empty; domain arrays are always truthy when defined). -/
def buildSearchParams (parsedOptions : Option ParsedSearchOptions) (numResults : Nat) :
    SearchParams :=
  { numResults := numResults
    type := match parsedOptions with | some o => o.searchType | none => .auto
    text := match parsedOptions with | some o => o.text | none => true
    highlights := match parsedOptions with | some o => o.highlights | none => true
    summary := match parsedOptions with | some o => o.summary | none => true
    startPublishedDate := presentString (parsedOptions.bind (fun o => o.startPublishedDate))
    endPublishedDate := presentString (parsedOptions.bind (fun o => o.endPublishedDate))
    includeDomains := parsedOptions.bind (fun o => o.includeDomains)
    excludeDomains := parsedOptions.bind (fun o => o.excludeDomains) }

/-- The field-by-field mapping `webSearch` applies to each provider result. -/
def mapExaResult (r : ExaSearchResult) : ExaSearchResult :=
  ⟨r.title, r.url, r.id, r.text, r.highlights, r.summary, r.publishedDate, r.author,
    r.image, r.favicon⟩

/-- Outcome of the `exa.searchAndContents` call and the construction of the
`WebSearchResponse`, including the catch-block re-wrapping of a provider
error as `Web search failed: ...`. -/
def webSearchProviderResult (env : Env) (query : String) (searchParams : SearchParams)
    (parsedOptions : Option ParsedSearchOptions) : Except String WebSearchResponse :=
  match env.searchAndContents query searchParams with
  | .ok response =>
    .ok ⟨response.results.map mapExaResult, response.requestId,
      (match parsedOptions with | some o => o.searchType | none => .auto),
      response.costDollars.map (fun c => ⟨c.total⟩)⟩
  | .error e => .error ("Web search failed: " ++ e)

/-- Body of `webSearch` after input validation: compute the clamped
`numResults` (`Math.min(Math.max(parsedOptions?.numResults || 5, 3), 5)`),
build `searchParams`, and issue the provider call.  The second component
records the `searchAndContents` calls issued (here exactly one). -/
def webSearchCall (env : Env) (query : String) (parsedOptions : Option ParsedSearchOptions) :
    Except String WebSearchResponse × List SearchParams :=
  let requested :=
    match parsedOptions with
    | none => 5
    | some o => if o.numResults = 0 then 5 else o.numResults
  let numResults := min (max requested 3) 5
  let searchParams := buildSearchParams parsedOptions numResults
  (webSearchProviderResult env query searchParams parsedOptions, [searchParams])

/-- The `webSearch` executor (web-search.ts), instrumented with the list of
provider calls issued: empty-query check (`!query || query.trim().length
=== 0`, whose thrown error the catch block rewraps as `Web search failed:
Search query cannot be empty`), API-key validation, option parsing, then
the provider call. -/
def webSearchRun (env : Env) (query : String) (options : Option SearchOptions) :
    Except String WebSearchResponse × List SearchParams :=
  if query.data.isEmpty || (trimChars query.data).isEmpty then
    (.error "Web search failed: Search query cannot be empty", [])
  else
    match validateApiKey env.exaApiKey with
    | .error e => (.error e, [])
    | .ok _ =>
      match options with
      | none => webSearchCall env query none
      | some o =>
        match parseSearchOptions o with
        | .error e => (.error e, [])
        | .ok parsedOptions => webSearchCall env query (some parsedOptions)

/- ## fetch-url.ts -/

/-- Outcome of one `fetchUrl` invocation: the returned-or-rethrown result
together with the number of times `engine.cleanup()` ran. -/
structure FetchRunOutcome where
  result : Except String String
  cleanups : Nat
deriving DecidableEq, Repr

/-- The `fetchUrl` executor (fetch-url.ts): a fresh engine is created for
the invocation; the try-block returns `result.content` (the non-critical
`result.error` is only logged); the catch block logs and re-throws; the
finally block runs `engine.cleanup()` on both exit paths, which the
`cleanups` field counts. -/
def fetchUrlRun (fetchHTML : String → Except String FetchHTMLResult) (url : String) :
    FetchRunOutcome :=
  match fetchHTML url with
  | .ok r => ⟨.ok r.content, 1⟩
  | .error e => ⟨.error e, 1⟩

/- ## generate-haiku.ts -/

/-- The prompt string `generateHaiku` passes to `generateText`. -/
def haikuPromptText (prompt : String) : String :=
  "Generate a traditional haiku (5-7-5 syllable pattern) based on this prompt: " ++ prompt ++
  "\n      \n      Rules:\n      - Follow the 5-7-5 syllable pattern strictly\n      - Include nature imagery when possible\n      - Capture a moment or emotion\n      - Return only the haiku, no explanations\n      - Use line breaks between the three lines"

/-- The fixed fallback haiku of generate-haiku.ts. -/
def fallbackHaiku : String :=
  "AI dreams unfold here\nWords dance like cherry blossoms\nSpring code gently flows"

/-- The `generateHaiku` executor (generate-haiku.ts): the result text of the
model call, or — when that call fails — the fixed fallback haiku.  The
catch block swallows every error, so the function is total. -/
def generateHaiku (model : String → Except String String) (prompt : String) : String :=
  match model (haikuPromptText prompt) with
  | .ok t => t
  | .error _ => fallbackHaiku

/- ## cli.ts dispatch loop -/

/-- One iteration of the dispatch loop of `agenticWorkflow` for the current
`toolName`, given `parameters = plan.object.parameters[toolName]`: each of
the three guarded branches of cli.ts, skipped when `parameters` is
`undefined` (`toolName === ... && parameters`; an empty array is truthy and
yields an empty inner loop).  `webSearch` results are truncated by the
caller to the top 3 (`result.results.slice(0, 3)`); fetched content is
truncated to 2000 characters with the full length recorded. -/
def dispatchStep (env : Env) (toolName : ToolName) (parameters : Option (List String)) :
    List ToolResult :=
  match toolName, parameters with
  | .webSearch, some parameters =>
    parameters.map (fun query =>
      match (webSearchRun env query none).1 with
      | .ok result => ⟨.webSearch, query, .ok (.searchResults (result.results.take 3))⟩
      | .error e => ⟨.webSearch, query, .error e⟩)
  | .fetchUrl, some parameters =>
    parameters.map (fun url =>
      match (fetchUrlRun env.fetchHTML url).result with
      | .ok content =>
        ⟨.fetchUrl, url, .ok (.fetchContent (jsSubstringTo content 2000) (jsLength content))⟩
      | .error e => ⟨.fetchUrl, url, .error e⟩)
  | .generateHaiku, some parameters =>
    parameters.map (fun prompt =>
      ⟨.generateHaiku, prompt, .ok (.haikuText (generateHaiku env.haikuModel prompt))⟩)
  | _, none => []

/-- The full dispatch loop: `for (const toolName of plan.object.tools)`,
appending each iteration's pushes in order. -/
def dispatchResults (env : Env) (plan : Plan) : List ToolResult :=
  plan.tools.flatMap (fun toolName => dispatchStep env toolName (plan.params toolName))

/-- The flattened ToolInvocation sequence of a Plan: `tools` in given order
and, within each tool, `parameters[tool]` in given order (missing treated
as empty). -/
def Plan.invocations (p : Plan) : List (ToolName × String) :=
  p.tools.flatMap (fun t => ((p.params t).getD []).map (fun a => (t, a)))

/-- The dispatch of one ToolInvocation in isolation: the ToolResult the
dispatch loop pushes for the pair (tool identifier, argument). -/
def dispatchOne (env : Env) (inv : ToolName × String) : ToolResult :=
  match inv with
  | (.webSearch, query) =>
    match (webSearchRun env query none).1 with
    | .ok result => ⟨.webSearch, query, .ok (.searchResults (result.results.take 3))⟩
    | .error e => ⟨.webSearch, query, .error e⟩
  | (.fetchUrl, url) =>
    match (fetchUrlRun env.fetchHTML url).result with
    | .ok content =>
      ⟨.fetchUrl, url, .ok (.fetchContent (jsSubstringTo content 2000) (jsLength content))⟩
    | .error e => ⟨.fetchUrl, url, .error e⟩
  | (.generateHaiku, prompt) =>
    ⟨.generateHaiku, prompt, .ok (.haikuText (generateHaiku env.haikuModel prompt))⟩

/-- Return value of `agenticWorkflow`. -/
structure WorkflowOutput where
  plan : Plan
  toolResults : List ToolResult
  response : String

/-- The orchestrator after planning (claims quantify over valid Plans, so
the `generateObject` planning call is modelled as the given Plan): execute
the dispatch loop, then hand the sealed `toolResults` — together with the
query, `reasoning` and `expectedWorkflow` embedded in the synthesis
prompt — to the synthesis model call; its failure is fatal. -/
def agenticWorkflow (env : Env) (userQuery : String) (plan : Plan) :
    Except String WorkflowOutput :=
  let toolResults := dispatchResults env plan
  match env.synthesisModel plan.reasoning plan.expectedWorkflow userQuery toolResults with
  | .ok text => .ok ⟨plan, toolResults, text⟩
  | .error e => .error e

/- ## General lemmas about the dispatch loop -/

/-- Each loop iteration equals the pointwise dispatch of that tool's
flattened invocations. -/
theorem dispatchStep_eq (env : Env) (t : ToolName) (ps : Option (List String)) :
    dispatchStep env t ps = (ps.getD []).map (fun a => dispatchOne env (t, a)) := by
  cases t <;> cases ps <;> rfl

/-- The dispatch loop is the pointwise dispatch of the Plan's flattened
invocation sequence. -/
theorem dispatchResults_eq_map (env : Env) (p : Plan) :
    dispatchResults env p = (p.invocations).map (dispatchOne env) := by
  unfold dispatchResults Plan.invocations
  rw [List.map_flatMap]
  simp only [dispatchStep_eq, List.map_map, Function.comp_def]

/-- A dispatched ToolResult records its invocation's tool identifier. -/
theorem dispatchOne_tool (env : Env) (i : ToolName × String) :
    (dispatchOne env i).tool = i.1 := by
  obtain ⟨t, a⟩ := i
  cases t <;> simp only [dispatchOne] <;> (try split) <;> rfl

/-- A dispatched ToolResult records its invocation's argument. -/
theorem dispatchOne_arg (env : Env) (i : ToolName × String) :
    (dispatchOne env i).arg = i.2 := by
  obtain ⟨t, a⟩ := i
  cases t <;> simp only [dispatchOne] <;> (try split) <;> rfl

/-- Membership in the flattened invocation sequence determines tool
membership in `tools` and argument membership in that tool's parameters. -/
theorem mem_invocations (p : Plan) (i : ToolName × String) (h : i ∈ p.invocations) :
    i.1 ∈ p.tools ∧ i.2 ∈ (p.params i.1).getD [] := by
  unfold Plan.invocations at h
  rw [List.mem_flatMap] at h
  obtain ⟨t, ht, hi⟩ := h
  rw [List.mem_map] at hi
  obtain ⟨a, ha, rfl⟩ := hi
  exact ⟨ht, ha⟩

/- ## Concrete fixtures used by witnesses and counterexamples -/

/-- A provider result carrying only the identifying strings. -/
def plainResult (s : String) : ExaSearchResult :=
  ⟨s, s, s, none, none, none, none, none, none, none⟩

/-- Environment in which every tool-level collaborator fails but synthesis
succeeds. -/
def envFailTools : Env :=
  ⟨some "key",
   fun _ _ => .error "provider down",
   fun _ => .error "fetch down",
   fun _ => .error "model down",
   fun _ _ _ _ => .ok "final answer"⟩

/-- Environment whose search provider returns five results and whose fetch
provider returns fixed content. -/
def envFive : Env :=
  ⟨some "key",
   fun _ _ => .ok ⟨[plainResult "r1", plainResult "r2", plainResult "r3",
                    plainResult "r4", plainResult "r5"], "rid", none⟩,
   fun _ => .ok ⟨"hello world", none⟩,
   fun _ => .ok "sea haiku", fun _ _ _ _ => .ok "final answer"⟩

/-- A Plan exercising all three tools once. -/
def planAll : Plan :=
  ⟨"r", [.webSearch, .generateHaiku, .fetchUrl],
   ⟨some ["q1"], some ["https://e.com"], some ["the sea"]⟩, "w"⟩

/-- A Plan with an empty `tools` sequence. -/
def planEmptyTools : Plan :=
  ⟨"r", [], ⟨some ["q1"], none, none⟩, "w"⟩

/-- A Plan in which `fetchUrl` occurs in `parameters` but not in `tools`,
and `webSearch` occurs in `tools` with no `parameters` entry. -/
def planMismatch : Plan :=
  ⟨"r", [.webSearch], ⟨none, some ["https://e.com"], none⟩, "w"⟩

/- ## Claims -/

/-- Claim C1: for every valid Plan, the dispatch loop produces a number of
ToolResults equal to the sum, over each tool identifier occurring in
`tools` in order (counting duplicates), of the length of `parameters[tool]`
(missing treated as zero); in particular a Plan with empty `tools` yields
an empty ToolResult sequence. -/
theorem toolResult_count (env : Env) (p : Plan) :
    (dispatchResults env p).length
      = (p.tools.map (fun t => ((p.params t).getD []).length)).sum ∧
    (p.tools = [] → dispatchResults env p = []) := by
  constructor
  · rw [dispatchResults_eq_map, List.length_map]
    unfold Plan.invocations
    simp [List.length_flatMap, Function.comp_def, List.length_map]
  · intro h
    unfold dispatchResults
    rw [h]
    rfl

/-- Witness for C1 at a concrete empty-tools Plan. -/
theorem toolResult_count_witness :
    planEmptyTools.tools = [] ∧ dispatchResults envFailTools planEmptyTools = [] :=
  ⟨rfl, (toolResult_count envFailTools planEmptyTools).2 rfl⟩

/-- Claim C2: the ToolResult sequence handed to synthesis projects, entry by
entry, to the flattening of `tools` in Plan order and, within each tool, of
`parameters[tool]` in given order: the i-th ToolResult records the tool
identifier and argument of the i-th flattened ToolInvocation. -/
theorem toolResult_order (env : Env) (p : Plan) :
    (dispatchResults env p).map (fun r => (r.tool, r.arg)) = p.invocations := by
  rw [dispatchResults_eq_map, List.map_map]
  have h : ∀ i ∈ p.invocations, ((fun r => (r.tool, r.arg)) ∘ dispatchOne env) i = i := by
    intro i _
    simp [Function.comp, dispatchOne_tool, dispatchOne_arg]
  rw [List.map_congr_left h]
  exact List.map_id' p.invocations

/-- Claim C3: `generateHaiku` never raises to its caller — on model failure
it returns the fixed fallback haiku — so every dispatched `generateHaiku`
invocation yields a success ToolResult (the dispatcher's error branch for
this tool is unreachable). -/
theorem generateHaiku_never_fails (env : Env) (p : Plan) :
    (∀ model prompt e, model (haikuPromptText prompt) = .error e →
        generateHaiku model prompt = fallbackHaiku) ∧
    (∀ r ∈ dispatchResults env p, r.tool = .generateHaiku →
        ∃ h, r.outcome = .ok (.haikuText h)) := by
  constructor
  · intro model prompt e he
    unfold generateHaiku
    rw [he]
  · intro r hr ht
    rw [dispatchResults_eq_map] at hr
    rw [List.mem_map] at hr
    obtain ⟨i, _, rfl⟩ := hr
    have htool := dispatchOne_tool env i
    rw [ht] at htool
    obtain ⟨t, a⟩ := i
    cases t
    case generateHaiku => exact ⟨generateHaiku env.haikuModel a, rfl⟩
    all_goals exact absurd htool.symm (by intro hc; cases hc)

/-- Witness for C3: a failing haiku model still produces the fallback text
and a success ToolResult. -/
theorem generateHaiku_never_fails_witness :
    generateHaiku envFailTools.haikuModel "the sea" = fallbackHaiku ∧
    (∃ h, (ToolResult.mk .generateHaiku "the sea"
        (.ok (.haikuText fallbackHaiku))).outcome = .ok (.haikuText h)) := by
  constructor
  · exact (generateHaiku_never_fails envFailTools planAll).1
      envFailTools.haikuModel "the sea" "model down" rfl
  · have hm : dispatchResults envFailTools planAll
        = [⟨.webSearch, "q1", .error "Web search failed: provider down"⟩,
           ⟨.generateHaiku, "the sea", .ok (.haikuText fallbackHaiku)⟩,
           ⟨.fetchUrl, "https://e.com", .error "fetch down"⟩] := rfl
    exact (generateHaiku_never_fails envFailTools planAll).2
      ⟨.generateHaiku, "the sea", .ok (.haikuText fallbackHaiku)⟩
      (by rw [hm]; exact List.mem_cons_of_mem _ (List.mem_cons_self _ _)) rfl

/-- Claim C4: each ToolResult is a function of its own invocation alone
(the dispatch sequence is the pointwise image of the flattened invocation
sequence, so one failing search- or fetch-invocation never aborts or
perturbs the others), a failing invocation is recorded as an error
ToolResult carrying the tool, the argument and the error message, and
synthesis still runs over the full sequence. -/
theorem failure_isolation (env : Env) (p : Plan) :
    (dispatchResults env p = (p.invocations).map (dispatchOne env)) ∧
    (∀ q e, (webSearchRun env q none).1 = .error e →
        dispatchOne env (.webSearch, q) = ⟨.webSearch, q, .error e⟩) ∧
    (∀ u e, (fetchUrlRun env.fetchHTML u).result = .error e →
        dispatchOne env (.fetchUrl, u) = ⟨.fetchUrl, u, .error e⟩) ∧
    (∀ uq s, env.synthesisModel p.reasoning p.expectedWorkflow uq (dispatchResults env p)
          = .ok s →
        agenticWorkflow env uq p = .ok ⟨p, dispatchResults env p, s⟩) := by
  refine ⟨dispatchResults_eq_map env p, ?_, ?_, ?_⟩
  · intro q e he
    simp only [dispatchOne, he]
  · intro u e he
    simp only [dispatchOne, he]
  · intro uq s hs
    simp only [agenticWorkflow, hs]

/-- Witness for C4: with both providers down, the failures are recorded as
error ToolResults and the workflow still reaches a successful synthesis. -/
theorem failure_isolation_witness :
    dispatchOne envFailTools (.webSearch, "q1")
      = ⟨.webSearch, "q1", .error "Web search failed: provider down"⟩ ∧
    dispatchOne envFailTools (.fetchUrl, "https://e.com")
      = ⟨.fetchUrl, "https://e.com", .error "fetch down"⟩ ∧
    agenticWorkflow envFailTools "uq" planAll
      = .ok ⟨planAll, dispatchResults envFailTools planAll, "final answer"⟩ := by
  refine ⟨?_, ?_, ?_⟩
  · exact (failure_isolation envFailTools planAll).2.1 "q1"
      "Web search failed: provider down" rfl
  · exact (failure_isolation envFailTools planAll).2.2.1 "https://e.com" "fetch down" rfl
  · exact (failure_isolation envFailTools planAll).2.2.2 "uq" "final answer" rfl

/-- The `WebSearchResponse` the executor returns in `envFive`: all five
provider results are kept by `webSearch` itself. -/
def respFive : WebSearchResponse :=
  ⟨[plainResult "r1", plainResult "r2", plainResult "r3", plainResult "r4",
    plainResult "r5"], "rid", .auto, none⟩

/-- Counterexample to Claim C5 as stated: with a provider returning five
results, `webSearch` itself returns all five (no executor-side truncation
of the kept results), and the dispatching caller attaches only three — the
caller, not the executor, truncates the payload. -/
theorem executor_truncation_counterexample :
    (webSearchRun envFive "q1" none).1 = .ok respFive ∧
    respFive.results.length = 5 ∧
    dispatchOne envFive (.webSearch, "q1")
      = ⟨.webSearch, "q1", .ok (.searchResults (respFive.results.take 3))⟩ ∧
    (respFive.results.take 3).length = 3 ∧
    respFive.results.take 3 ≠ respFive.results := by
  exact ⟨rfl, rfl, rfl, rfl, by decide⟩

/-- Claim C5 (amended): the executor `webSearch` clamps only the number of
results *requested* from the provider (to `[3, 5]`) and keeps every result
the provider returns; the bound on how many results are kept in the
success ToolResult is enforced by the dispatching caller, which truncates
the executor's results to the top 3 (`slice(0, 3)`) before attaching them. -/
theorem executor_truncation_amended (env : Env) (q : String) :
    (∀ sp po er, env.searchAndContents q sp = .ok er →
        ∃ resp, webSearchProviderResult env q sp po = .ok resp ∧
          resp.results.length = er.results.length) ∧
    (∀ prms, (webSearchRun env q none).2 = [prms] →
        3 ≤ prms.numResults ∧ prms.numResults ≤ 5) ∧
    (∀ resp, (webSearchRun env q none).1 = .ok resp →
        dispatchOne env (.webSearch, q)
          = ⟨.webSearch, q, .ok (.searchResults (resp.results.take 3))⟩ ∧
        (resp.results.take 3).length ≤ 3) := by
  refine ⟨?_, ?_, ?_⟩
  · intro sp po er her
    refine ⟨⟨er.results.map mapExaResult, er.requestId,
      (match po with | some o => o.searchType | none => .auto),
      er.costDollars.map (fun c => ⟨c.total⟩)⟩, ?_, ?_⟩
    · simp only [webSearchProviderResult, her]
    · simp [List.length_map]
  · intro prms hp
    unfold webSearchRun at hp
    split at hp
    · simp at hp
    · split at hp
      · simp at hp
      · simp only [webSearchCall] at hp
        rw [List.cons.injEq] at hp
        rw [← hp.1]
        constructor <;> simp [buildSearchParams]
  · intro resp hr
    constructor
    · simp only [dispatchOne, hr]
    · rw [List.length_take]
      exact Nat.min_le_left _ _

/-- Witness for C5 (amended) in the five-result environment. -/
theorem executor_truncation_amended_witness :
    (∃ resp, webSearchProviderResult envFive "q1"
        (buildSearchParams none 5) none = .ok resp ∧
      resp.results.length
        = ([plainResult "r1", plainResult "r2", plainResult "r3", plainResult "r4",
            plainResult "r5"] : List ExaSearchResult).length) ∧
    (3 ≤ (buildSearchParams none 5).numResults ∧ (buildSearchParams none 5).numResults ≤ 5) ∧
    (dispatchOne envFive (.webSearch, "q1")
        = ⟨.webSearch, "q1", .ok (.searchResults (respFive.results.take 3))⟩ ∧
      (respFive.results.take 3).length ≤ 3) := by
  refine ⟨?_, ?_, ?_⟩
  · exact (executor_truncation_amended envFive "q1").1 (buildSearchParams none 5) none
      ⟨[plainResult "r1", plainResult "r2", plainResult "r3", plainResult "r4",
        plainResult "r5"], "rid", none⟩ rfl
  · exact (executor_truncation_amended envFive "q1").2.1 (buildSearchParams none 5) rfl
  · exact (executor_truncation_amended envFive "q1").2.2 respFive rfl

/-- Claim C6: every `fetchUrl` invocation runs `engine.cleanup()` exactly
once on each exit path — when the fetch succeeds (the content is returned)
and when the provider call fails (the error is re-thrown to the caller). -/
theorem fetchUrl_cleanup_once (fetchHTML : String → Except String FetchHTMLResult)
    (url : String) :
    (fetchUrlRun fetchHTML url).cleanups = 1 ∧
    (∀ r, fetchHTML url = .ok r → (fetchUrlRun fetchHTML url).result = .ok r.content) ∧
    (∀ e, fetchHTML url = .error e → (fetchUrlRun fetchHTML url).result = .error e) := by
  refine ⟨?_, ?_, ?_⟩
  · unfold fetchUrlRun
    split <;> rfl
  · intro r hr
    simp only [fetchUrlRun, hr]
  · intro e he
    simp only [fetchUrlRun, he]

/-- Witness for C6 on both a succeeding and a failing fetch provider. -/
theorem fetchUrl_cleanup_once_witness :
    (fetchUrlRun envFive.fetchHTML "https://e.com").cleanups = 1 ∧
    (fetchUrlRun envFive.fetchHTML "https://e.com").result = .ok "hello world" ∧
    (fetchUrlRun envFailTools.fetchHTML "https://e.com").cleanups = 1 ∧
    (fetchUrlRun envFailTools.fetchHTML "https://e.com").result = .error "fetch down" := by
  refine ⟨?_, ?_, ?_, ?_⟩
  · exact (fetchUrl_cleanup_once envFive.fetchHTML "https://e.com").1
  · exact (fetchUrl_cleanup_once envFive.fetchHTML "https://e.com").2.1 ⟨"hello world", none⟩ rfl
  · exact (fetchUrl_cleanup_once envFailTools.fetchHTML "https://e.com").1
  · exact (fetchUrl_cleanup_once envFailTools.fetchHTML "https://e.com").2.2 "fetch down" rfl

/-- Claim C7: a successful fetch-style invocation yields a success
ToolResult holding the content truncated to its first 2000 characters
together with a `contentLength` field recording the full untruncated
length. -/
theorem fetch_result_truncated (env : Env) (p : Plan) (url content : String)
    (hc : (fetchUrlRun env.fetchHTML url).result = .ok content) :
    dispatchOne env (.fetchUrl, url)
      = ⟨.fetchUrl, url, .ok (.fetchContent (jsSubstringTo content 2000)
          (jsLength content))⟩ ∧
    (∀ r ∈ dispatchResults env p, r.tool = .fetchUrl → r.arg = url →
        r.outcome = .ok (.fetchContent (jsSubstringTo content 2000) (jsLength content))) := by
  constructor
  · simp only [dispatchOne, hc]
  · intro r hr ht ha
    rw [dispatchResults_eq_map, List.mem_map] at hr
    obtain ⟨i, _, rfl⟩ := hr
    have htool := dispatchOne_tool env i
    have harg := dispatchOne_arg env i
    rw [ht] at htool
    rw [ha] at harg
    obtain ⟨t, a⟩ := i
    cases t
    case fetchUrl =>
      simp only at harg
      rw [← harg]
      simp only [dispatchOne, hc]
    all_goals exact absurd htool.symm (by intro hcon; cases hcon)

/-- Witness for C7 at a concrete succeeding fetch. -/
theorem fetch_result_truncated_witness :
    dispatchOne envFive (.fetchUrl, "https://e.com")
      = ⟨.fetchUrl, "https://e.com", .ok (.fetchContent (jsSubstringTo "hello world" 2000)
          (jsLength "hello world"))⟩ ∧
    jsSubstringTo "hello world" 2000 = "hello world" ∧ jsLength "hello world" = 11 :=
  ⟨(fetch_result_truncated envFive planAll "https://e.com" "hello world" rfl).1,
   by decide, by decide⟩

/-- Claim C8: a tool identifier in `parameters` but absent from `tools`
contributes no ToolResults, a tool identifier in `tools` whose `parameters`
entry is missing or empty contributes no ToolResults, and neither case is
an error — the workflow still proceeds to synthesis. -/
theorem skipped_tools_no_invocations (env : Env) (uq : String) (p : Plan) :
    (∀ t, t ∉ p.tools → ∀ r ∈ dispatchResults env p, r.tool ≠ t) ∧
    (∀ t, p.params t = none ∨ p.params t = some [] →
        ∀ r ∈ dispatchResults env p, r.tool ≠ t) ∧
    (∀ s, env.synthesisModel p.reasoning p.expectedWorkflow uq (dispatchResults env p)
          = .ok s →
        agenticWorkflow env uq p = .ok ⟨p, dispatchResults env p, s⟩) := by
  refine ⟨?_, ?_, ?_⟩
  · intro t ht r hr
    rw [dispatchResults_eq_map, List.mem_map] at hr
    obtain ⟨i, hi, rfl⟩ := hr
    rw [dispatchOne_tool]
    intro hc
    exact ht (hc ▸ (mem_invocations p i hi).1)
  · intro t ht r hr
    rw [dispatchResults_eq_map, List.mem_map] at hr
    obtain ⟨i, hi, rfl⟩ := hr
    rw [dispatchOne_tool]
    intro hc
    have := (mem_invocations p i hi).2
    rw [hc] at this
    rcases ht with h0 | h0 <;> rw [h0] at this <;> exact absurd this (List.not_mem_nil _)
  · intro s hs
    simp only [agenticWorkflow, hs]

/-- The single ToolResult produced for `planSkew` below. -/
def haikuOnlyResult : ToolResult :=
  ⟨.generateHaiku, "p", .ok (.haikuText fallbackHaiku)⟩

/-- A Plan where `fetchUrl` has parameters but is not in `tools`, and
`webSearch` is in `tools` without a parameters entry. -/
def planSkew : Plan :=
  ⟨"r", [.webSearch, .generateHaiku], ⟨none, some ["https://e.com"], some ["p"]⟩, "w"⟩

/-- Witness for C8 on `planSkew`: the skipped tools leave no trace and the
workflow completes. -/
theorem skipped_tools_no_invocations_witness :
    haikuOnlyResult.tool ≠ .fetchUrl ∧ haikuOnlyResult.tool ≠ .webSearch ∧
    agenticWorkflow envFailTools "uq" planSkew
      = .ok ⟨planSkew, [haikuOnlyResult], "final answer"⟩ := by
  have hm : dispatchResults envFailTools planSkew = [haikuOnlyResult] := rfl
  refine ⟨?_, ?_, ?_⟩
  · exact (skipped_tools_no_invocations envFailTools "uq" planSkew).1 .fetchUrl
      (by decide) haikuOnlyResult (by rw [hm]; exact List.mem_singleton_self _)
  · exact (skipped_tools_no_invocations envFailTools "uq" planSkew).2.1 .webSearch
      (Or.inl rfl) haikuOnlyResult (by rw [hm]; exact List.mem_singleton_self _)
  · have := (skipped_tools_no_invocations envFailTools "uq" planSkew).2.2 "final answer" rfl
    rw [hm] at this
    exact this

/-- Claim C9: an empty or whitespace-only query makes `webSearch` fail with
the wrapped empty-query error before any provider call is issued. -/
theorem empty_query_rejected (env : Env) (query : String) (options : Option SearchOptions)
    (h : trimChars query.data = []) :
    webSearchRun env query options
      = (.error "Web search failed: Search query cannot be empty", []) := by
  unfold webSearchRun
  have he : (trimChars query.data).isEmpty = true := by rw [h]; rfl
  simp [he]

/-- Witness for C9 at a whitespace-only query: the error is produced and no
provider call is recorded. -/
theorem empty_query_rejected_witness :
    trimChars "   ".data = [] ∧
    webSearchRun envFive "   " none
      = (.error "Web search failed: Search query cannot be empty", []) :=
  ⟨by decide, empty_query_rejected envFive "   " none (by decide)⟩

/-- Computation rule for `parseSearchOptions` when `numResults` is absent. -/
theorem parseSearchOptions_none (o : SearchOptions) (hn : o.numResults = none) :
    parseSearchOptions o = .ok (applyOptionDefaults o 5) := by
  unfold parseSearchOptions
  rw [hn]

/-- Computation rule for `parseSearchOptions` when `numResults` is given. -/
theorem parseSearchOptions_some (o : SearchOptions) (n : Nat) (hn : o.numResults = some n) :
    parseSearchOptions o
      = (if n < 1 then .error "Validation error: Number must be greater than or equal to 1"
         else if 100 < n then
           .error "Validation error: Number must be less than or equal to 100"
         else .ok (applyOptionDefaults o n)) := by
  unfold parseSearchOptions
  rw [hn]

/-- Inversion of a successful option parse: the parsed `numResults` is the
requested one (default 5 when missing), and a supplied value was accepted
only within `[1, 100]`. -/
theorem parseSearchOptions_ok {o : SearchOptions} {po : ParsedSearchOptions}
    (h : parseSearchOptions o = .ok po) :
    (o.numResults = none → po.numResults = 5) ∧
    (∀ n, o.numResults = some n → po.numResults = n ∧ 1 ≤ n ∧ n ≤ 100) := by
  constructor
  · intro hn
    rw [parseSearchOptions_none o hn] at h
    injection h with h
    rw [← h]
    rfl
  · intro n hn
    rw [parseSearchOptions_some o n hn] at h
    split at h
    · cases h
    · split at h
      · cases h
      · injection h with h
        refine ⟨by rw [← h]; rfl, by omega, by omega⟩

/-- Claim C10: whenever `webSearch` issues a provider call, the `numResults`
requested from the provider is the caller's value clamped to `[3, 5]`:
below 3 it is raised to 3, above 5 lowered to 5, and a missing value
defaults to 5. -/
theorem numResults_clamped (env : Env) (q : String) (opts : Option SearchOptions)
    (prms : SearchParams) (h : (webSearchRun env q opts).2 = [prms]) :
    (3 ≤ prms.numResults ∧ prms.numResults ≤ 5) ∧
    (∀ o n, opts = some o → o.numResults = some n →
        (n < 3 → prms.numResults = 3) ∧ (5 < n → prms.numResults = 5) ∧
        (3 ≤ n → n ≤ 5 → prms.numResults = n)) ∧
    ((opts = none ∨ ∃ o, opts = some o ∧ o.numResults = none) → prms.numResults = 5) := by
  unfold webSearchRun at h
  cases hq : q.data.isEmpty || (trimChars q.data).isEmpty <;> rw [hq] at h
  · cases hk : validateApiKey env.exaApiKey <;> rw [hk] at h
    · simp at h
    · cases opts with
      | none =>
        simp only [webSearchCall, Bool.false_eq_true, if_false, List.cons.injEq,
          and_true] at h
        have hnum : prms.numResults = 5 := by rw [← h]; rfl
        refine ⟨by omega, ?_, fun _ => hnum⟩
        intro o n hc
        cases hc
      | some o =>
        simp only at h
        cases hpo : parseSearchOptions o <;> rw [hpo] at h
        · simp at h
        case ok po =>
          simp only [webSearchCall, Bool.false_eq_true, if_false, List.cons.injEq,
            and_true] at h
          have hnum : prms.numResults
              = min (max (if po.numResults = 0 then 5 else po.numResults) 3) 5 := by
            rw [← h]
            rfl
          obtain ⟨hnone, hsome⟩ := parseSearchOptions_ok hpo
          refine ⟨?_, ?_, ?_⟩
          · omega
          · intro o' n ho' hn
            injection ho' with ho'
            subst ho'
            obtain ⟨hval, h1, _⟩ := hsome n hn
            rw [hval, if_neg (by omega)] at hnum
            refine ⟨fun _ => by omega, fun _ => by omega, fun _ _ => by omega⟩
          · rintro (hc | ⟨o', ho', hn⟩)
            · cases hc
            · injection ho' with ho'
              subst ho'
              have hval := hnone hn
              rw [hval, if_neg (by omega)] at hnum
              omega
  · simp at h

/-- Options requesting a single result (below the lower bound). -/
def optsOne : SearchOptions := ⟨some 1, none, none, none, none, none, none, none, none⟩

/-- Options requesting fifty results (above the upper bound). -/
def optsFifty : SearchOptions := ⟨some 50, none, none, none, none, none, none, none, none⟩

/-- The provider parameters with `numResults` 3 and all defaults. -/
def prmsNum3 : SearchParams := ⟨3, .auto, true, true, true, none, none, none, none⟩

/-- The provider parameters with `numResults` 5 and all defaults. -/
def prmsNum5 : SearchParams := ⟨5, .auto, true, true, true, none, none, none, none⟩

/-- Witness for C10: a request of 1 is raised to 3, a request of 50 is
lowered to 5, and absent options default to 5. -/
theorem numResults_clamped_witness :
    (webSearchRun envFive "q" (some optsOne)).2 = [prmsNum3] ∧ prmsNum3.numResults = 3 ∧
    (webSearchRun envFive "q" (some optsFifty)).2 = [prmsNum5] ∧ prmsNum5.numResults = 5 ∧
    (webSearchRun envFive "q" none).2 = [prmsNum5] ∧
    3 ≤ prmsNum5.numResults ∧ prmsNum5.numResults ≤ 5 := by
  refine ⟨rfl, ?_, rfl, ?_, rfl, ?_, ?_⟩
  · exact ((numResults_clamped envFive "q" (some optsOne) prmsNum3 rfl).2.1
      optsOne 1 rfl rfl).1 (by omega)
  · exact ((numResults_clamped envFive "q" (some optsFifty) prmsNum5 rfl).2.1
      optsFifty 50 rfl rfl).2.1 (by omega)
  · exact ((numResults_clamped envFive "q" none prmsNum5 rfl).1).1
  · exact ((numResults_clamped envFive "q" none prmsNum5 rfl).1).2
